import Mathlib

/-!
Verification of the ovs-unixctl JSON-RPC client.

The development shallowly embeds the three source files of the crate:

* `src/jsonrpc.rs` — the `Client` state (a transport client, an optional
  connected stream, and an id counter), `build_request`, `send_request`,
  `call_params` and `call`.  The transport traits `JsonStreamClient`
  (`connect`) and `JsonStream` (`send`/`recv`) are modelled as a record of
  state-passing functions; stateful Rust methods become explicit
  state-passing, `anyhow` failures become `Except`.
* `src/error.rs` — the crate error enum and the
  `From<serde_json::Error>` classification.
* `src/ovs.rs` — the socket locator `find_socket_at` / `find_socket`
  (the filesystem and the environment become explicit oracles) and the
  command wrapper `OvsUnixCtl::run`.
-/

/-- JSON values as exchanged on the wire (the fragment serde_json needs
for this crate: the request/response objects, strings, arrays, numbers). -/
inductive Json where
  | null : Json
  | bool (b : Bool) : Json
  | num (n : Nat) : Json
  | str (s : String) : Json
  | arr (elems : List Json) : Json
  | obj (fields : List (String × Json)) : Json

/-- A JSON-RPC request (`Request` in `src/jsonrpc.rs`), with the parameter
type instantiated at strings as the `call`/`call_params` wrappers do. -/
structure Request where
  method : String
  params : List String
  id : Nat
deriving DecidableEq, Repr

/-- A JSON-RPC response (`Response<R>` in `src/jsonrpc.rs`). -/
structure Response (R : Type) where
  result : Option R
  error : Option String
  id : Option Nat
deriving DecidableEq, Repr

/-- Wire encoding of a `Request`: the serde derive serializes the struct as
an object with the fields in declaration order. -/
def Request.toJson (r : Request) : Json :=
  .obj [("method", .str r.method), ("params", .arr (r.params.map .str)), ("id", .num r.id)]

/-- Field lookup in a JSON object. -/
def Json.lookupField (j : Json) (key : String) : Option Json :=
  match j with
  | .obj fields => fields.lookup key
  | _ => none

/-- Decode a JSON value that must be a string. -/
def Json.asStr : Json → Option String
  | .str s => some s
  | _ => none

/-- Decode a JSON value that must be a number. -/
def Json.asNum : Json → Option Nat
  | .num n => some n
  | _ => none

/-- Decode a JSON array of strings. -/
def decodeStrList : List Json → Option (List String)
  | [] => some []
  | .str s :: rest => (decodeStrList rest).map (s :: ·)
  | _ => none

/-- Decode a JSON value that must be an array of strings. -/
def Json.asStrList : Json → Option (List String)
  | .arr elems => decodeStrList elems
  | _ => none

/-- Wire decoding of a `Request`: the inverse reading of the serde data
format (field-by-field lookup of `method`, `params`, `id`). -/
def Request.fromJson? (j : Json) : Option Request := do
  let m ← (j.lookupField "method").bind Json.asStr
  let ps ← (j.lookupField "params").bind Json.asStrList
  let i ← (j.lookupField "id").bind Json.asNum
  some { method := m, params := ps, id := i }

theorem decodeStrList_map_str (ps : List String) :
    decodeStrList (ps.map Json.str) = some ps := by
  induction ps with
  | nil => rfl
  | cons p ps ih => simp [decodeStrList, ih]

/-- C8: serializing a `Request` to JSON and deserializing it back is the
identity on the `method`, `params` and `id` fields (here: on the whole
record, which consists of exactly those three fields). -/
theorem request_json_round_trip (r : Request) :
    Request.fromJson? (Request.toJson r) = some r := by
  simp [Request.fromJson?, Request.toJson, Json.lookupField, List.lookup,
    Json.asStr, Json.asNum, Json.asStrList, decodeStrList_map_str r.params]

/-- Categories of a `serde_json::Error` (`serde_json::error::Category`). -/
inductive SerdeCategory where
  | io
  | syn
  | data
  | eof
deriving DecidableEq, Repr

/-- A `serde_json::Error`: its classification plus its message (the message
stands in for the boxed payload, which for the `Io` category is the
underlying `std::io::Error`). -/
structure SerdeError where
  category : SerdeCategory
  msg : String
deriving DecidableEq, Repr

/-- A `std::io::Error`, reduced to its message. -/
structure IoError where
  msg : String
deriving DecidableEq, Repr

/-- Conversion `serde_json::Error → std::io::Error` (`error.into()`): for the
`Io` category this recovers the wrapped I/O error. -/
def SerdeError.intoIo (e : SerdeError) : IoError :=
  { msg := e.msg }

/-- The crate error enum (`Error` in `src/error.rs`). -/
inductive Error where
  | Protocol (msg : String)
  | Serialize (e : SerdeError)
  | Socket (e : IoError)
  | Timeout
  | Command (cmd : String) (params : String) (error : String)
deriving DecidableEq, Repr

/-- The `From<serde_json::Error> for Error` conversion in `src/error.rs`:
it matches on `error.classify()` and sends the `Io` category to `Socket`
(via `error.into()`), every other category to `Serialize`. -/
def Error.from_serde_json (e : SerdeError) : Error :=
  match e.category with
  | .io => .Socket e.intoIo
  | _ => .Serialize e

/-- C6: the serde_json error conversion classifies by underlying cause: the
`Io` category becomes a `Socket` error, every other category (`syn`tax,
`data`, `eof`) becomes `Serialize`, and no error whose category is `Io` is
ever classified as `Serialize`. -/
theorem serde_error_classification (e : SerdeError) :
    (e.category = .io → Error.from_serde_json e = .Socket e.intoIo)
    ∧ (e.category ≠ .io → Error.from_serde_json e = .Serialize e)
    ∧ (∀ x : SerdeError, Error.from_serde_json e = .Serialize x → e.category ≠ .io) := by
  refine ⟨fun h => ?_, fun h => ?_, fun x hx h => ?_⟩
  · simp [Error.from_serde_json, h]
  · rcases e with ⟨c, m⟩
    cases c <;> simp_all [Error.from_serde_json]
  · rw [Error.from_serde_json] at hx
    rw [h] at hx
    exact Error.noConfusion hx

/-- Concrete instances of the classification: an I/O-caused JSON error
becomes `Socket`, a syntactic one becomes `Serialize`. -/
theorem serde_error_classification_witness :
    Error.from_serde_json { category := .io, msg := "broken pipe" }
      = .Socket { msg := "broken pipe" }
    ∧ Error.from_serde_json { category := .syn, msg := "bad token" }
      = .Serialize { category := .syn, msg := "bad token" } :=
  ⟨(serde_error_classification _).1 rfl, (serde_error_classification _).2.1 (by decide)⟩

/-- Whitespace as the Rust `char::is_whitespace` predicate sees it (the Unicode
`White_Space` property), used by `str::trim` in `find_socket_at`. -/
def rustIsWhitespace (c : Char) : Bool :=
  (0x09 ≤ c.toNat && c.toNat ≤ 0x0D) || c.toNat = 0x20 || c.toNat = 0x85 ||
  c.toNat = 0xA0 || c.toNat = 0x1680 || (0x2000 ≤ c.toNat && c.toNat ≤ 0x200A) ||
  c.toNat = 0x2028 || c.toNat = 0x2029 || c.toNat = 0x202F || c.toNat = 0x205F ||
  c.toNat = 0x3000

/-- The Rust `str::trim`: drop leading and trailing whitespace. -/
def rustTrim (s : String) : String :=
  String.mk (((s.data.dropWhile rustIsWhitespace).reverse.dropWhile rustIsWhitespace).reverse)

/-- Whether a path string starts with the separator (is absolute). -/
def headIsSlash (s : String) : Bool :=
  match s.data with
  | [] => false
  | c :: _ => c = '/'

/-- Whether a path string already ends with the separator. -/
def lastIsSlash (s : String) : Bool :=
  match s.data.reverse with
  | [] => false
  | c :: _ => c = '/'

/-- The Rust `Path::join` for the shapes the locator builds: an absolute
component replaces the base, otherwise a separator is inserted as needed. -/
def pathJoin (dir name : String) : String :=
  if headIsSlash name then name
  else if dir = "" then name
  else if lastIsSlash dir then dir ++ name
  else dir ++ "/" ++ name

deriving instance DecidableEq for Except

/-- The filesystem as the locator observes it: `fs::read_to_string` yields
the contents of a file or fails, `fs::exists` reports existence or fails
(`none` models an I/O error propagated by `?`). -/
structure Fs where
  read_to_string : String → Option String
  fexists : String → Option Bool

/-- Failures of the socket locator (`src/ovs.rs`): a propagated I/O error,
the `bail!("pidfile is empty: ...")` protocol error, the
`bail!("failed to find control socket ...")` not-found error, and the
non-unicode `OVS_RUNDIR` error of `find_socket`. -/
inductive LocErr where
  | ioErr
  | emptyPidfile (pidfile : String)
  | sockNotFound (target : String)
  | envNonUnicode
deriving DecidableEq, Repr

/-- `OvsUnixCtl::find_socket_at` (`src/ovs.rs` lines 54-71): read
`{rundir}/{target}.pid`, fail if its trimmed contents are empty, then
require `{rundir}/{target}.{pid}.ctl` to exist and return it. -/
def find_socket_at (fs : Fs) (target : String) (rundir : String) : Except LocErr String :=
  let pidfile_path := pathJoin rundir (target ++ ".pid")
  match fs.read_to_string pidfile_path with
  | none => .error .ioErr
  | some contents =>
    let pid_str := rustTrim contents
    if pid_str = "" then .error (.emptyPidfile pidfile_path)
    else
      let sock_path := pathJoin rundir (target ++ "." ++ pid_str ++ ".ctl")
      match fs.fexists sock_path with
      | none => .error .ioErr
      | some false => .error (.sockNotFound target)
      | some true => .ok sock_path

/-- The `OVS_RUNDIR` environment variable as `env::var_os` reports it:
absent, present with unicode contents, or present but not valid unicode. -/
inductive EnvVar where
  | absent
  | unicode (s : String)
  | nonUnicode
deriving DecidableEq, Repr

/-- `OvsUnixCtl::find_socket` (`src/ovs.rs` lines 73-81): take the run
directory from `OVS_RUNDIR` when set (failing on non-unicode contents),
else the default `/var/run/openvswitch`, and delegate to
`find_socket_at`. -/
def find_socket (fs : Fs) (ovs_rundir : EnvVar) (target : String) : Except LocErr String :=
  match ovs_rundir with
  | .unicode s => find_socket_at fs target s
  | .nonUnicode => .error .envNonUnicode
  | .absent => find_socket_at fs target "/var/run/openvswitch"

/-- The filesystem of the C4 scenario: `/tmp/x/daemon.pid` contains
`"4242\n"`, and `/tmp/x/daemon.4242.ctl` is the only existing path. -/
def scenarioFs : Fs where
  read_to_string := fun path => if path = "/tmp/x/daemon.pid" then some "4242\n" else none
  fexists := fun path => some (path = "/tmp/x/daemon.4242.ctl")

/-- C4: given readable pidfile contents, the locator fails with the
pidfile-empty (protocol) error when the trimmed contents are empty,
returns exactly `{rundir}/{target}.{pid}.ctl` when that path exists, and
fails with the not-found error when it does not; the concrete scenario
`find_socket_at scenarioFs "daemon" "/tmp/x"` returns
`/tmp/x/daemon.4242.ctl`. -/
theorem find_socket_at_spec (fs : Fs) (target rundir contents : String)
    (hread : fs.read_to_string (pathJoin rundir (target ++ ".pid")) = some contents) :
    (rustTrim contents = "" →
      find_socket_at fs target rundir
        = .error (.emptyPidfile (pathJoin rundir (target ++ ".pid"))))
    ∧ (rustTrim contents ≠ "" →
        (fs.fexists (pathJoin rundir (target ++ "." ++ rustTrim contents ++ ".ctl")) = some true →
          find_socket_at fs target rundir
            = .ok (pathJoin rundir (target ++ "." ++ rustTrim contents ++ ".ctl")))
        ∧ (fs.fexists (pathJoin rundir (target ++ "." ++ rustTrim contents ++ ".ctl")) = some false →
          find_socket_at fs target rundir = .error (.sockNotFound target)))
    ∧ find_socket_at scenarioFs "daemon" "/tmp/x" = .ok "/tmp/x/daemon.4242.ctl" := by
  refine ⟨fun hempty => ?_, fun hne => ⟨fun hex => ?_, fun hex => ?_⟩, by decide⟩
  · simp [find_socket_at, hread, hempty]
  · simp [find_socket_at, hread, hne, hex]
  · simp [find_socket_at, hread, hne, hex]

/-- Concrete instance of the locator contract, on the scenario filesystem
and on a filesystem whose pidfile holds only whitespace. -/
theorem find_socket_at_spec_witness :
    find_socket_at scenarioFs "daemon" "/tmp/x" = .ok "/tmp/x/daemon.4242.ctl"
    ∧ find_socket_at { read_to_string := fun _ => some " \n", fexists := fun _ => some true }
        "d" "/run" = .error (.emptyPidfile (pathJoin "/run" ("d" ++ ".pid"))) := by
  refine ⟨?_, ?_⟩
  · exact (find_socket_at_spec scenarioFs "daemon" "/tmp/x" "4242\n" (by decide)).2.2
  · exact (find_socket_at_spec { read_to_string := fun _ => some " \n", fexists := fun _ => some true }
      "d" "/run" " \n" rfl).1 (by decide)

/-- C7: the locator resolves the run directory from the `OVS_RUNDIR`
environment variable when it is set with valid text, and uses the fixed
default `/var/run/openvswitch` when it is absent. -/
theorem find_socket_rundir (fs : Fs) (target s : String) :
    find_socket fs (.unicode s) target = find_socket_at fs target s
    ∧ find_socket fs .absent target = find_socket_at fs target "/var/run/openvswitch" :=
  ⟨rfl, rfl⟩

/-- Transport abstraction over the traits of `src/jsonrpc.rs`:
`JsonStreamClient::connect` creates a stream from the stream-client state
`TC`, and `JsonStream::send`/`recv` act on the stream state `S`.  The
`&mut self` receivers become explicit state passing; `R` is the response
payload type and `E` the transport error type. -/
structure Transport (TC S R E : Type) where
  connect : TC → Except E (S × TC)
  send : S → Request → Except E S
  recv : S → Except E (Response R × S)

/-- The JSON-RPC client state (`Client` in `src/jsonrpc.rs`): the stream
client, the optional connected stream, and the `last_id` counter
(`AtomicUsize`). -/
structure Client (TC S : Type) where
  stream_client : TC
  stream : Option S
  last_id : Nat
deriving DecidableEq, Repr

/-- `Client::new`: no stream yet, counter initialised to 1. -/
def Client.new {TC S : Type} (stream_client : TC) : Client TC S :=
  { stream_client := stream_client, stream := none, last_id := 1 }

/-- One `AtomicUsize::fetch_add(1, Relaxed)` step: it returns the previous
counter value and stores the incremented one.  The whole read-modify-write
is a single indivisible step, which is exactly the atomicity the Rust
`fetch_add` guarantees: any concurrent execution is an interleaving of
such steps on the shared counter. -/
def fetch_add (ctr : Nat) : Nat × Nat :=
  (ctr, ctr + 1)

/-- Errors surfaced by the client operations: a propagated transport
error, the `anyhow` protocol failures of `send_request` (carrying the
message text of the source), and the `anyhow` command failures of
`call`/`call_params`. -/
inductive RpcError (E : Type) where
  | transport (e : E)
  | protocol (msg : String)
  | command (msg : String)
deriving DecidableEq, Repr

variable {TC S R E : Type}

/-- `Client::build_request`: uses the current counter value as the id and
increments the counter (`self.last_id.fetch_add(1, Relaxed)`). -/
def build_request (c : Client TC S) (method : String) (params : List String) :
    Request × Client TC S :=
  ({ method := method, params := params, id := (fetch_add c.last_id).1 },
   { c with last_id := (fetch_add c.last_id).2 })

/-- The part of `Client::send_request` that runs once a stream `s` is
stored: send the request, receive one response, and correlate its id
(`res.id.ok_or_else(no id present)? != req_id` → `bail!("ID missmatch")`). -/
def send_request_on (T : Transport TC S R E) (c : Client TC S) (s : S) (req : Request) :
    Except (RpcError E) (Response R) × Client TC S :=
  match T.send s req with
  | .error e => (.error (.transport e), c)
  | .ok s1 =>
    match T.recv s1 with
    | .error e => (.error (.transport e), { c with stream := some s1 })
    | .ok (res, s2) =>
      let c2 : Client TC S := { c with stream := some s2 }
      match res.id with
      | none => (.error (.protocol "no id present in response"), c2)
      | some i =>
        if i ≠ req.id then (.error (.protocol "ID missmatch"), c2)
        else (.ok res, c2)

/-- `Client::send_request` (`src/jsonrpc.rs` lines 102-121): connect and
store a stream if none is stored yet, then send/receive/correlate. -/
def send_request (T : Transport TC S R E) (c : Client TC S) (req : Request) :
    Except (RpcError E) (Response R) × Client TC S :=
  match c.stream with
  | some s => send_request_on T c s req
  | none =>
    match T.connect c.stream_client with
    | .error e => (.error (.transport e), c)
    | .ok (s, tc) =>
      send_request_on T { c with stream_client := tc, stream := some s } s req

/-- `Client::call_params` (`src/jsonrpc.rs` lines 124-144): build a
request, send it, and turn a present `error` field into the
`Failed to run command {method} with params [{joined}]: {error}` failure. -/
def call_params (T : Transport TC S R E) (c : Client TC S) (method : String)
    (params : List String) : Except (RpcError E) (Response R) × Client TC S :=
  match send_request T (build_request c method params).2 (build_request c method params).1 with
  | (.error e, c2) => (.error e, c2)
  | (.ok res, c2) =>
    match res.error with
    | some err =>
      (.error (.command ("Failed to run command " ++ method ++ " with params [" ++
        String.intercalate ", " params ++ "]: " ++ err)), c2)
    | none => (.ok res, c2)

/-- `Client::call` (`src/jsonrpc.rs` lines 147-154): like `call_params`
with an empty parameter slice and the shorter
`Failed to run command {method}: {error}` failure message. -/
def call (T : Transport TC S R E) (c : Client TC S) (method : String) :
    Except (RpcError E) (Response R) × Client TC S :=
  match send_request T (build_request c method []).2 (build_request c method []).1 with
  | (.error e, c2) => (.error e, c2)
  | (.ok res, c2) =>
    match res.error with
    | some err =>
      (.error (.command ("Failed to run command " ++ method ++ ": " ++ err)), c2)
    | none => (.ok res, c2)

/-- `OvsUnixCtl::run` (`src/ovs.rs` lines 127-132): delegate to
`call_params` and return the optional `result` field as-is. -/
def OvsUnixCtl_run (T : Transport TC S String E) (c : Client TC S) (cmd : String)
    (params : List String) : Except (RpcError E) (Option String) × Client TC S :=
  match call_params T c cmd params with
  | (.error e, c2) => (.error e, c2)
  | (.ok res, c2) => (.ok res.result, c2)

/-- State of a simulated stream client: how many connections it has
handed out so far. -/
structure SimTC where
  conns : Nat
deriving DecidableEq, Repr

/-- State of a simulated stream: which connection it came from and the id
of the last request sent on it. -/
structure SimStream where
  connId : Nat
  lastReqId : Nat
deriving DecidableEq, Repr

/-- A simulated transport that answers every request with the fixed
response `res`; connecting hands out streams tagged with consecutive
connection numbers. -/
def cannedT (res : Response String) : Transport SimTC SimStream String Unit where
  connect := fun tc => .ok ({ connId := tc.conns, lastReqId := 0 }, { conns := tc.conns + 1 })
  send := fun s req => .ok { connId := s.connId, lastReqId := req.id }
  recv := fun s => .ok (res, s)

/-- A simulated echoing daemon: it answers with result `"pong"` and the id
of the request last sent on the stream, so every exchange correlates. -/
def echoT : Transport SimTC SimStream String Unit where
  connect := fun tc => .ok ({ connId := tc.conns, lastReqId := 0 }, { conns := tc.conns + 1 })
  send := fun s req => .ok { connId := s.connId, lastReqId := req.id }
  recv := fun s => .ok ({ result := some "pong", error := none, id := some s.lastReqId }, s)

theorem send_request_on_fst_eq (T : Transport TC S R E) (c : Client TC S) (s : S)
    (req : Request) (s1 : S) (res : Response R) (s2 : S)
    (hsend : T.send s req = .ok s1) (hrecv : T.recv s1 = .ok (res, s2)) :
    (send_request_on T c s req).1 =
      match res.id with
      | none => .error (.protocol "no id present in response")
      | some i => if i ≠ req.id then .error (.protocol "ID missmatch") else .ok res := by
  simp [send_request_on, hsend, hrecv]
  cases res.id with
  | none => rfl
  | some i =>
    by_cases h : i = req.id
    · simp [h]
    · simp [h]

theorem send_request_fst_eq (T : Transport TC S R E) (c : Client TC S) (s : S)
    (req : Request) (s1 : S) (res : Response R) (s2 : S)
    (hs : c.stream = some s ∨ (c.stream = none ∧ ∃ tc, T.connect c.stream_client = .ok (s, tc)))
    (hsend : T.send s req = .ok s1) (hrecv : T.recv s1 = .ok (res, s2)) :
    (send_request T c req).1 =
      match res.id with
      | none => .error (.protocol "no id present in response")
      | some i => if i ≠ req.id then .error (.protocol "ID missmatch") else .ok res := by
  rcases hs with h | ⟨h, tc, hconn⟩
  · rw [send_request, h]
    exact send_request_on_fst_eq T c s req s1 res s2 hsend hrecv
  · rw [send_request, h, hconn]
    exact send_request_on_fst_eq T _ s req s1 res s2 hsend hrecv

/-- C1: when a response is received (the client either holds a stream or
connects one), `send_request` returns it exactly when its id equals the
request id: no id yields the `no id present in response` protocol failure,
a different id yields the `ID missmatch` protocol failure with no result,
and a matching id yields the response unchanged (in particular with its
`error` field intact). -/
theorem send_request_correlation (T : Transport TC S R E) (c : Client TC S) (s : S)
    (req : Request) (s1 : S) (res : Response R) (s2 : S)
    (hs : c.stream = some s ∨ (c.stream = none ∧ ∃ tc, T.connect c.stream_client = .ok (s, tc)))
    (hsend : T.send s req = .ok s1) (hrecv : T.recv s1 = .ok (res, s2)) :
    (res.id = none → (send_request T c req).1 = .error (.protocol "no id present in response"))
    ∧ (∀ i, res.id = some i → i ≠ req.id →
        (send_request T c req).1 = .error (.protocol "ID missmatch"))
    ∧ (res.id = some req.id → (send_request T c req).1 = .ok res) := by
  have hmain := send_request_fst_eq T c s req s1 res s2 hs hsend hrecv
  refine ⟨fun hid => ?_, fun i hid hne => ?_, fun hid => ?_⟩
  · rw [hmain, hid]
  · rw [hmain, hid]
    simp [hne]
  · rw [hmain, hid]
    simp

/-- Concrete correlation runs against simulated transports: a response
without id fails with the no-id protocol error, a response with id 7 to
request id 5 fails with the mismatch protocol error, and a response with
the matching id 5 is returned unchanged even though it carries a daemon
error. -/
theorem send_request_correlation_witness :
    (send_request (cannedT { result := some "r", error := none, id := none })
      { stream_client := { conns := 1 }, stream := some { connId := 0, lastReqId := 0 },
        last_id := 6 }
      { method := "ping", params := [], id := 5 }).1
        = .error (.protocol "no id present in response")
    ∧ (send_request (cannedT { result := some "r", error := none, id := some 7 })
      { stream_client := { conns := 1 }, stream := some { connId := 0, lastReqId := 0 },
        last_id := 6 }
      { method := "ping", params := [], id := 5 }).1
        = .error (.protocol "ID missmatch")
    ∧ (send_request (cannedT { result := none, error := some "boom", id := some 5 })
      { stream_client := { conns := 1 }, stream := some { connId := 0, lastReqId := 0 },
        last_id := 6 }
      { method := "ping", params := [], id := 5 }).1
        = .ok { result := none, error := some "boom", id := some 5 } := by
  refine ⟨?_, ?_, ?_⟩
  · exact (send_request_correlation _ _ _ _ _ _ _ (Or.inl rfl) rfl rfl).1 rfl
  · exact (send_request_correlation _ _ _ _ _ _ _ (Or.inl rfl) rfl rfl).2.1 7 rfl (by decide)
  · exact (send_request_correlation _ _ _ _ _ _ _ (Or.inl rfl) rfl rfl).2.2 rfl

/-- Ids allocated by `n` successive `build_request` invocations on one
client (each one an atomic `fetch_add` on the shared counter, so any
interleaving of concurrent invocations performs exactly this sequence of
steps on the counter). -/
def build_ids (c : Client TC S) : Nat → List Nat
  | 0 => []
  | n + 1 =>
    let rc := build_request c "list-commands" []
    rc.1.id :: build_ids rc.2 n

theorem build_ids_eq_range' (c : Client TC S) (n : Nat) :
    build_ids c n = List.range' c.last_id n := by
  induction n generalizing c with
  | zero => rfl
  | succ n ih =>
    rw [List.range'_succ]
    simpa [build_ids, build_request, fetch_add] using ih (build_request c "list-commands" []).2

theorem send_request_last_id (T : Transport TC S R E) (c : Client TC S) (req : Request) :
    (send_request T c req).2.last_id = c.last_id := by
  have hon : ∀ (c' : Client TC S) (s : S), (send_request_on T c' s req).2.last_id = c'.last_id := by
    intro c' s
    cases h1 : T.send s req with
    | error e => simp [send_request_on, h1]
    | ok s1 =>
      cases h2 : T.recv s1 with
      | error e => simp [send_request_on, h1, h2]
      | ok p =>
        obtain ⟨res, s2⟩ := p
        cases hid : res.id with
        | none => simp [send_request_on, h1, h2, hid]
        | some i =>
          by_cases h : i = req.id <;> simp [send_request_on, h1, h2, hid, h]
  cases hs : c.stream with
  | some s =>
    rw [send_request, hs]
    exact hon c s
  | none =>
    cases hc : T.connect c.stream_client with
    | error e => simp [send_request, hs, hc]
    | ok p =>
      rw [send_request, hs, hc]
      exact hon _ p.1

theorem call_params_last_id (T : Transport TC S R E) (c : Client TC S) (m : String)
    (p : List String) : (call_params T c m p).2.last_id = c.last_id + 1 := by
  cases hs : send_request T (build_request c m p).2 (build_request c m p).1 with
  | mk r c2 =>
    have h2 : c2.last_id = c.last_id + 1 := by
      have := send_request_last_id T (build_request c m p).2 (build_request c m p).1
      rw [hs] at this
      simpa [build_request, fetch_add] using this
    cases r with
    | error e => simp [call_params, hs, h2]
    | ok res =>
      cases he : res.error with
      | none => simp [call_params, hs, he, h2]
      | some err => simp [call_params, hs, he, h2]

theorem call_last_id (T : Transport TC S R E) (c : Client TC S) (m : String) :
    (call T c m).2.last_id = c.last_id + 1 := by
  cases hs : send_request T (build_request c m []).2 (build_request c m []).1 with
  | mk r c2 =>
    have h2 : c2.last_id = c.last_id + 1 := by
      have := send_request_last_id T (build_request c m []).2 (build_request c m []).1
      rw [hs] at this
      simpa [build_request, fetch_add] using this
    cases r with
    | error e => simp [call, hs, h2]
    | ok res =>
      cases he : res.error with
      | none => simp [call, hs, he, h2]
      | some err => simp [call, hs, he, h2]

/-- C2: the counter of a fresh client starts at 1; each built request takes the
current counter value as its id and bumps the counter by one (a single
atomic `fetch_add` step, so ids stay unique under any interleaving of
invocations); the ids of `n` successive built requests are exactly
`[1, …, n]`, strictly increasing with no repeats and starting at 1; and a
`call_params` or `call` invocation bumps the counter by exactly one
whether it succeeds or fails. -/
theorem request_ids_monotone :
    (∀ tc : TC, (@Client.new TC S tc).last_id = 1)
    ∧ (∀ (c : Client TC S) (m : String) (p : List String),
        (build_request c m p).1.id = c.last_id
        ∧ (build_request c m p).2.last_id = c.last_id + 1)
    ∧ (∀ (tc : TC) (n : Nat), build_ids (@Client.new TC S tc) n = List.range' 1 n)
    ∧ (∀ n : Nat, (List.range' 1 n).Pairwise (· < ·) ∧ (List.range' 1 n).Nodup
        ∧ (0 < n → (List.range' 1 n).head? = some 1))
    ∧ (∀ (T : Transport TC S R E) (c : Client TC S) (m : String) (p : List String),
        (call_params T c m p).2.last_id = c.last_id + 1)
    ∧ (∀ (T : Transport TC S R E) (c : Client TC S) (m : String),
        (call T c m).2.last_id = c.last_id + 1) := by
  refine ⟨fun tc => rfl, fun c m p => ⟨rfl, rfl⟩, fun tc n => build_ids_eq_range' _ n,
    fun n => ⟨List.pairwise_lt_range' 1 n, List.nodup_range' 1 n, fun hn => ?_⟩,
    call_params_last_id, call_last_id⟩
  cases n with
  | zero => exact absurd hn (by simp)
  | succ n => rw [List.range'_succ]; rfl

/-- Concrete id allocation runs: three builds on a fresh client allocate
ids 1, 2, 3, and a failed `call_params` against a mismatching transport
still bumps the counter from 1 to 2. -/
theorem request_ids_monotone_witness :
    build_ids (@Client.new SimTC SimStream { conns := 0 }) 3 = [1, 2, 3]
    ∧ (List.range' 1 3).head? = some 1
    ∧ (call_params (cannedT { result := some "r", error := none, id := some 99 })
        (Client.new { conns := 0 }) "ping" []).2.last_id = 2 := by
  have h := @request_ids_monotone SimTC SimStream String Unit
  refine ⟨(h.2.2.1 { conns := 0 } 3).trans (by decide), (h.2.2.2.1 3).2.2 (by decide), ?_⟩
  exact (h.2.2.2.2.1 (cannedT { result := some "r", error := none, id := some 99 })
    (Client.new { conns := 0 }) "ping" []).trans rfl

/-- C3: when the correlated response carries an error string, `call_params`
fails with the command error embedding the method name, the comma-joined
parameter list and the daemon error text verbatim, and `call` fails with
the command error embedding the method name and the error text (its
parameter list is empty); when the error field is null, `call_params`
returns the response carrying the result payload. -/
theorem call_command_error (T : Transport TC S R E) (c : Client TC S) (m : String)
    (p : List String) (res : Response R) (c2 : Client TC S) :
    (send_request T (build_request c m p).2 (build_request c m p).1 = (.ok res, c2) →
      (∀ err, res.error = some err →
        (call_params T c m p).1 = .error (.command
          ("Failed to run command " ++ m ++ " with params [" ++
            String.intercalate ", " p ++ "]: " ++ err)))
      ∧ (res.error = none → call_params T c m p = (.ok res, c2)))
    ∧ (send_request T (build_request c m []).2 (build_request c m []).1 = (.ok res, c2) →
      ∀ err, res.error = some err →
        (call T c m).1 = .error (.command ("Failed to run command " ++ m ++ ": " ++ err))) := by
  refine ⟨fun hs => ⟨fun err herr => ?_, fun herr => ?_⟩, fun hs err herr => ?_⟩
  · simp [call_params, hs, herr]
  · simp [call_params, hs, herr]
  · simp [call, hs, herr]

/-- Concrete command-error runs against a simulated transport whose
correlated response reports the daemon error `"boom"`: `call_params`
embeds the method, the joined parameter list and the error text, `call`
embeds the method and the error text. -/
theorem call_command_error_witness :
    (call_params (cannedT { result := none, error := some "boom", id := some 1 })
      (Client.new { conns := 0 }) "vlog/set" ["unixctl:dbg", "x"]).1
        = .error (.command "Failed to run command vlog/set with params [unixctl:dbg, x]: boom")
    ∧ (call (cannedT { result := none, error := some "boom", id := some 1 })
      (Client.new { conns := 0 }) "ping").1
        = .error (.command "Failed to run command ping: boom") := by
  constructor
  · exact (((call_command_error (cannedT { result := none, error := some "boom", id := some 1 })
      (Client.new { conns := 0 }) "vlog/set" ["unixctl:dbg", "x"]
      { result := none, error := some "boom", id := some 1 }
      { stream_client := { conns := 1 }, stream := some { connId := 0, lastReqId := 1 },
        last_id := 2 }).1 rfl).1 "boom" rfl).trans (by decide)
  · exact ((call_command_error (cannedT { result := none, error := some "boom", id := some 1 })
      (Client.new { conns := 0 }) "ping" []
      { result := none, error := some "boom", id := some 1 }
      { stream_client := { conns := 1 }, stream := some { connId := 0, lastReqId := 1 },
        last_id := 2 }).2 rfl "boom" rfl).trans (by decide)

/-- C10: whenever `call_params` succeeds (the response passed id
correlation and its error field is null), `OvsUnixCtl::run` returns the
optional result payload as-is; in particular a response with neither
result nor error yields `Ok(None)`, not a missing-result failure. -/
theorem run_returns_result (T : Transport TC S String E) (c : Client TC S) (cmd : String)
    (p : List String) (res : Response String) (c2 : Client TC S)
    (h : call_params T c cmd p = (.ok res, c2)) :
    OvsUnixCtl_run T c cmd p = (.ok res.result, c2)
    ∧ (res.result = none → OvsUnixCtl_run T c cmd p = (.ok none, c2)) := by
  refine ⟨by simp [OvsUnixCtl_run, h], fun hr => by simp [OvsUnixCtl_run, h, hr]⟩

/-- Concrete run against a simulated transport whose correlated response
has neither result nor error: `OvsUnixCtl_run` returns `Ok(None)`. -/
theorem run_returns_result_witness :
    OvsUnixCtl_run (cannedT { result := none, error := none, id := some 1 })
      (Client.new { conns := 0 }) "status" []
      = (.ok none,
         { stream_client := { conns := 1 }, stream := some { connId := 0, lastReqId := 1 },
           last_id := 2 }) :=
  (run_returns_result (cannedT { result := none, error := none, id := some 1 })
    (Client.new { conns := 0 }) "status" []
    { result := none, error := none, id := some 1 }
    { stream_client := { conns := 1 }, stream := some { connId := 0, lastReqId := 1 },
      last_id := 2 } rfl).2 rfl

theorem send_request_on_stream_client (T : Transport TC S R E) (c : Client TC S) (s : S)
    (req : Request) : (send_request_on T c s req).2.stream_client = c.stream_client := by
  cases h1 : T.send s req with
  | error e => simp [send_request_on, h1]
  | ok s1 =>
    cases h2 : T.recv s1 with
    | error e => simp [send_request_on, h1, h2]
    | ok p =>
      obtain ⟨res, s2⟩ := p
      cases hid : res.id with
      | none => simp [send_request_on, h1, h2, hid]
      | some i =>
        by_cases h : i = req.id <;> simp [send_request_on, h1, h2, hid, h]

theorem send_request_on_stream_some (T : Transport TC S R E) (c : Client TC S) (s : S)
    (req : Request) (h : c.stream = some s) :
    ∃ s2, (send_request_on T c s req).2.stream = some s2 := by
  cases h1 : T.send s req with
  | error e => exact ⟨s, by simpa [send_request_on, h1] using h⟩
  | ok s1 =>
    cases h2 : T.recv s1 with
    | error e => exact ⟨s1, by simp [send_request_on, h1, h2]⟩
    | ok p =>
      obtain ⟨res, s2⟩ := p
      cases hid : res.id with
      | none => exact ⟨s2, by simp [send_request_on, h1, h2, hid]⟩
      | some i =>
        refine ⟨s2, ?_⟩
        by_cases hi : i = req.id <;> simp [send_request_on, h1, h2, hid, hi]

theorem send_request_of_some (T : Transport TC S R E) (c : Client TC S) (s : S)
    (req : Request) (h : c.stream = some s) :
    send_request T c req = send_request_on T c s req := by
  rw [send_request, h]

/-- A sequence of `call` invocations on one client of the echoing
simulated transport. -/
def run_calls (c : Client SimTC SimStream) : List String → Client SimTC SimStream
  | [] => c
  | m :: ms => run_calls (call echoT c m).2 ms

theorem call_echo_step (c : Client SimTC SimStream) (k j : Nat) (m : String)
    (h : c.stream = some { connId := k, lastReqId := j }) :
    (call echoT c m).2
      = { stream_client := c.stream_client,
          stream := some { connId := k, lastReqId := c.last_id },
          last_id := c.last_id + 1 } := by
  simp [call, build_request, fetch_add, send_request, h, send_request_on, echoT]

theorem run_calls_inv (ms : List String) :
    ∀ (c : Client SimTC SimStream) (k j : Nat),
      c.stream = some { connId := k, lastReqId := j } →
      (run_calls c ms).stream_client = c.stream_client
      ∧ ∃ j2, (run_calls c ms).stream = some { connId := k, lastReqId := j2 } := by
  induction ms with
  | nil => exact fun c k j h => ⟨rfl, j, h⟩
  | cons m ms ih =>
    intro c k j h
    have hstep := call_echo_step c k j m h
    obtain ⟨h1, j2, h2⟩ := ih ((call echoT c m).2) k c.last_id (by rw [hstep])
    rw [run_calls]
    exact ⟨by rw [h1, hstep], j2, h2⟩

/-- C5: the connection is created lazily and exactly once.  Generically,
`send_request` on a client that already stores a stream leaves the stream
client untouched (it never reconnects, and the stored stream stays
present).  Against the echoing simulated transport — whose stream client
counts the connections handed out — any non-empty sequence of calls on a
fresh client leaves the connection counter at exactly 1 and keeps the
stream from that first connection (connection number 0) stored and
reused throughout. -/
theorem lazy_connect :
    (∀ (T : Transport TC S R E) (c : Client TC S) (s : S) (req : Request),
      c.stream = some s →
        (send_request T c req).2.stream_client = c.stream_client
        ∧ ∃ s2, (send_request T c req).2.stream = some s2)
    ∧ (∀ (m : String) (ms : List String),
        (run_calls (Client.new { conns := 0 }) (m :: ms)).stream_client.conns = 1
        ∧ ∃ j, (run_calls (Client.new { conns := 0 }) (m :: ms)).stream
            = some { connId := 0, lastReqId := j }) := by
  constructor
  · intro T c s req h
    rw [send_request_of_some T c s req h]
    exact ⟨send_request_on_stream_client T c s req, send_request_on_stream_some T c s req h⟩
  · intro m ms
    have hfirst : (call echoT (Client.new { conns := 0 }) m).2
        = { stream_client := { conns := 1 },
            stream := some { connId := 0, lastReqId := 1 }, last_id := 2 } := rfl
    have hinv := run_calls_inv ms ((call echoT (Client.new { conns := 0 }) m).2) 0 1
      (by rw [hfirst])
    obtain ⟨h1, j2, h2⟩ := hinv
    rw [run_calls]
    exact ⟨by rw [h1, hfirst], j2, h2⟩

/-- Concrete lazy-connection runs: with a stream already stored,
`send_request` leaves the stream client untouched; and two successive
calls on a fresh client against the echoing transport connect exactly
once. -/
theorem lazy_connect_witness :
    (send_request echoT
      { stream_client := { conns := 1 }, stream := some { connId := 0, lastReqId := 0 },
        last_id := 3 }
      { method := "ping", params := [], id := 3 }).2.stream_client = { conns := 1 }
    ∧ (run_calls (Client.new { conns := 0 }) ["ping", "version"]).stream_client.conns = 1 := by
  constructor
  · exact ((@lazy_connect SimTC SimStream String Unit).1 echoT
      { stream_client := { conns := 1 }, stream := some { connId := 0, lastReqId := 0 },
        last_id := 3 }
      { connId := 0, lastReqId := 0 } { method := "ping", params := [], id := 3 } rfl).1
  · exact ((@lazy_connect SimTC SimStream String Unit).2 "ping" ["version"]).1

theorem call_params_snd (T : Transport TC S R E) (c : Client TC S) (m : String)
    (p : List String) :
    (call_params T c m p).2
      = (send_request T (build_request c m p).2 (build_request c m p).1).2 := by
  cases hs : send_request T (build_request c m p).2 (build_request c m p).1 with
  | mk r c2 =>
    cases r with
    | error e => simp [call_params, hs]
    | ok res =>
      cases he : res.error with
      | none => simp [call_params, hs, he]
      | some err => simp [call_params, hs, he]

/-- A simulated transport whose responses never correlate: every receive
reports the id of the last request plus one, so `send_request` always
fails with the mismatch protocol error. -/
def badT : Transport SimTC SimStream String Unit where
  connect := fun tc => .ok ({ connId := tc.conns, lastReqId := 0 }, { conns := tc.conns + 1 })
  send := fun s req => .ok { connId := s.connId, lastReqId := req.id }
  recv := fun s => .ok ({ result := none, error := none, id := some (s.lastReqId + 1) }, s)

/-- C9: on a client that already holds a connection, a `call_params`
invocation — whatever its outcome, so in particular when `send_request`
fails with a send or receive error, a missing response id, or an id
mismatch — never rolls client state back: the stream client is untouched
(no reconnect), a stream stays stored, the counter keeps its incremented
value, the next built request takes the strictly larger id, and a later
`send_request` on the same client reuses the stored stream without
touching the stream client (no reconnect there either). -/
theorem no_rollback (T : Transport TC S R E) (c : Client TC S) (s : S) (m : String)
    (p : List String) (h : c.stream = some s) :
    (call_params T c m p).2.stream_client = c.stream_client
    ∧ (∃ s2, (call_params T c m p).2.stream = some s2)
    ∧ (call_params T c m p).2.last_id = c.last_id + 1
    ∧ (build_request (call_params T c m p).2 m p).1.id = c.last_id + 1
    ∧ (∀ req2 : Request, (send_request T (call_params T c m p).2 req2).2.stream_client
        = (call_params T c m p).2.stream_client) := by
  have hb : (build_request c m p).2.stream = some s := h
  have hsr := send_request_of_some T (build_request c m p).2 s (build_request c m p).1 hb
  have hlast := call_params_last_id T c m p
  have hsome : ∃ s2, (call_params T c m p).2.stream = some s2 := by
    rw [call_params_snd, hsr]
    exact send_request_on_stream_some T _ s _ hb
  refine ⟨?_, hsome, hlast, by simp [build_request, fetch_add, hlast], ?_⟩
  · rw [call_params_snd, hsr]
    exact send_request_on_stream_client T _ s _
  · intro req2
    obtain ⟨s2, hs2⟩ := hsome
    rw [send_request_of_some T _ s2 req2 hs2]
    exact send_request_on_stream_client T _ s2 req2

/-- Concrete no-rollback run: a `call_params` that fails with the id
mismatch protocol error leaves the stream client untouched, keeps a
stream stored, and keeps the bumped counter. -/
theorem no_rollback_witness :
    (call_params badT
      { stream_client := { conns := 1 }, stream := some { connId := 0, lastReqId := 0 },
        last_id := 4 } "appctl" []).1 = .error (.protocol "ID missmatch")
    ∧ (call_params badT
      { stream_client := { conns := 1 }, stream := some { connId := 0, lastReqId := 0 },
        last_id := 4 } "appctl" []).2.stream_client = { conns := 1 }
    ∧ (∃ s2, (call_params badT
      { stream_client := { conns := 1 }, stream := some { connId := 0, lastReqId := 0 },
        last_id := 4 } "appctl" []).2.stream = some s2)
    ∧ (call_params badT
      { stream_client := { conns := 1 }, stream := some { connId := 0, lastReqId := 0 },
        last_id := 4 } "appctl" []).2.last_id = 4 + 1
    ∧ (send_request badT (call_params badT
      { stream_client := { conns := 1 }, stream := some { connId := 0, lastReqId := 0 },
        last_id := 4 } "appctl" []).2
      { method := "next", params := [], id := 5 }).2.stream_client = { conns := 1 } := by
  have h := no_rollback badT
    { stream_client := { conns := 1 }, stream := some { connId := 0, lastReqId := 0 },
      last_id := 4 } { connId := 0, lastReqId := 0 } "appctl" [] rfl
  exact ⟨by decide, h.1, h.2.1, h.2.2.1,
    (h.2.2.2.2 { method := "next", params := [], id := 5 }).trans h.1⟩
